import Mathlib

/-!
Verification of the AI-Meeting-Summarizer backend (Express/Node server).

The definitions below are a shallow embedding of the server source
(`server.js` / `server-groq.js`): the local rule-based summarizer
`generateSimpleSummary`, the two-tier orchestrator
`generateSummaryWithFreeAI`, and the HTTP handlers for
`POST /api/summarize` and `PUT /api/summaries/:id`.

Strings are modelled over their character lists; the embedding is faithful
for ASCII text (JavaScript `toLowerCase`, `trim`, `\w`, `\s` and `length`
agree with the character-level model there).  The word-frequency object is
modelled as an insertion-ordered association list together with the
ECMAScript own-property enumeration order (array-index keys in ascending
numeric order first, then string keys in creation order), which is the
order `Object.entries` produces; `Array.prototype.sort` is stable
(ES2019), which the explicit stable insertion sort below mirrors.
-/

/-- JavaScript `/[.!?]+/`: sentence boundary characters. -/
def isSentenceDelim (c : Char) : Bool := c == '.' || c == '!' || c == '?'

/-- JavaScript `\w`: ASCII letters, digits and underscore. -/
def isWordChar (c : Char) : Bool := c.isAlphanum || c == '_'

/-- Split a character list on maximal runs of characters satisfying `p`,
with the semantics of JavaScript `String.prototype.split` on a one-or-more
character-class regex: a leading run yields a leading empty piece and a
trailing run yields a trailing empty piece.  `acc` is the current piece
(reversed); `afterDelim` records that the previous character was part of a
delimiter run (in which case `acc` is empty). -/
def splitRunsAux (p : Char → Bool) : List Char → List Char → Bool → List (List Char)
  | [], acc, _ => [acc.reverse]
  | c :: cs, acc, afterDelim =>
    if p c then
      if afterDelim then splitRunsAux p cs [] true
      else acc.reverse :: splitRunsAux p cs [] true
    else splitRunsAux p cs (c :: acc) false

/-- JavaScript `s.split(re)` where `re` is a one-or-more character class
given by `p`. -/
def jsSplitOnRuns (p : Char → Bool) (s : String) : List String :=
  (splitRunsAux p s.data [] false).map String.mk

/-- JavaScript `String.prototype.trim` (ASCII whitespace). -/
def jsTrim (s : String) : String :=
  String.mk (((s.data.dropWhile Char.isWhitespace).reverse.dropWhile Char.isWhitespace).reverse)

/-- JavaScript `String.prototype.toLowerCase` (ASCII). -/
def jsToLower (s : String) : String := String.mk (s.data.map Char.toLower)

/-- Does `l` start with `needle`? -/
def startsWithChars : List Char → List Char → Bool
  | _, [] => true
  | [], _ :: _ => false
  | c :: cs, d :: ds => c == d && startsWithChars cs ds

/-- Does `needle` occur as a contiguous run inside `l`? -/
def containsChars (needle : List Char) : List Char → Bool
  | [] => needle.isEmpty
  | c :: cs => startsWithChars (c :: cs) needle || containsChars needle cs

/-- JavaScript `haystack.includes(needle)`: substring containment. -/
def jsIncludes (haystack needle : String) : Bool :=
  containsChars needle.data haystack.data

/-- JavaScript `Array.prototype.join(sep)`. -/
def jsJoin (sep : String) : List String → String
  | [] => ""
  | [s] => s
  | s :: rest => s ++ sep ++ jsJoin sep rest

/-- `text.split(/[.!?]+/)` from `generateSimpleSummary`: the raw sentence
fragments, before the length filter. -/
def rawSentences (text : String) : List String :=
  jsSplitOnRuns isSentenceDelim text

/-- `text.split(/[.!?]+/).filter(s => s.trim().length > 10)`. -/
def sentencesOf (text : String) : List String :=
  (rawSentences text).filter (fun s => 10 < (jsTrim s).length)

/-- `text.toLowerCase().split(/\s+/)`. -/
def wordsOf (text : String) : List String :=
  jsSplitOnRuns Char.isWhitespace (jsToLower text)

/-- `word.replace(/[^\w]/g, '')`. -/
def cleanWord (w : String) : String := String.mk (w.data.filter isWordChar)

/-- Increment the count of key `w` in an insertion-ordered association
list, appending a fresh entry when `w` is absent (property creation order
of the JavaScript object `wordCount`). -/
def bumpCount : List (String × Nat) → String → List (String × Nat)
  | [], w => [(w, 1)]
  | (k, n) :: rest, w =>
    if k = w then (k, n + 1) :: rest else (k, n) :: bumpCount rest w

/-- The `wordCount` object of `generateSimpleSummary`, as an association
list in property creation order: every word is cleaned and counted when
its cleaned form has length > 3. -/
def wordCountEntries (text : String) : List (String × Nat) :=
  (wordsOf text).foldl
    (fun acc w =>
      let cw := cleanWord w
      if 3 < cw.length then bumpCount acc cw else acc)
    []

/-- Numeric value of a digit string. -/
def strToNat (s : String) : Nat :=
  s.data.foldl (fun n c => n * 10 + (c.toNat - 48)) 0

/-- ECMAScript array-index property key: a canonical decimal numeral whose
value is below 2^32 - 1.  Such keys enumerate before all other string keys
in `Object.entries`. -/
def isArrayIndexKey (s : String) : Bool :=
  !s.data.isEmpty && s.data.all Char.isDigit &&
    (s == "0" || !(s.data.head? == some '0')) &&
    decide (strToNat s < 4294967295)

/-- Stable insertion (ascending by numeric key value) used to order
array-index keys. -/
def insertAscByKey (x : String × Nat) : List (String × Nat) → List (String × Nat)
  | [] => [x]
  | y :: ys =>
    if strToNat y.1 ≤ strToNat x.1 then y :: insertAscByKey x ys else x :: y :: ys

/-- Ascending numeric sort of array-index entries. -/
def sortAscByKey (l : List (String × Nat)) : List (String × Nat) :=
  l.foldl (fun acc x => insertAscByKey x acc) []

/-- `Object.entries(wordCount)`: array-index keys first in ascending
numeric order, then the remaining keys in property creation order. -/
def jsObjectEntries (entries : List (String × Nat)) : List (String × Nat) :=
  sortAscByKey (entries.filter (fun e => isArrayIndexKey e.1)) ++
    entries.filter (fun e => !isArrayIndexKey e.1)

/-- Stable insertion (descending by count) mirroring the stable
`sort(([,a],[,b]) => b - a)`. -/
def insertDescByCount (x : String × Nat) : List (String × Nat) → List (String × Nat)
  | [] => [x]
  | y :: ys =>
    if x.2 ≤ y.2 then y :: insertDescByCount x ys else x :: y :: ys

/-- Stable sort, descending by count. -/
def sortDescByCount (l : List (String × Nat)) : List (String × Nat) :=
  l.foldl (fun acc x => insertDescByCount x acc) []

/-- The `keywords` of `generateSimpleSummary`:
`Object.entries(wordCount).sort(([,a],[,b]) => b - a).slice(0,10).map(([w]) => w)`. -/
def keywordsOf (text : String) : List String :=
  ((sortDescByCount (jsObjectEntries (wordCountEntries text))).take 10).map Prod.fst

/-- The ranking described by the specification: top 10 by descending
frequency with ties broken purely by first occurrence in the source text
(no array-index-key reordering).  Used to compare against `keywordsOf`. -/
def keywordsFirstOcc (text : String) : List String :=
  ((sortDescByCount (wordCountEntries text)).take 10).map Prod.fst

/-- The `keySentences` of `generateSimpleSummary`: sentences containing
some keyword (lower-cased substring check), capped at 5. -/
def keySentencesOf (text : String) : List String :=
  ((sentencesOf text).filter
      (fun s => (keywordsOf text).any (fun kw => jsIncludes (jsToLower s) kw))).take 5

/-- The fixed `actionWords` marker list. -/
def actionWords : List String :=
  ["will", "going to", "plan to", "need to", "should", "must"]

/-- Whether a sentence contains an action marker (lower-cased substring). -/
def hasActionMarker (s : String) : Bool :=
  actionWords.any (fun w => jsIncludes (jsToLower s) w)

/-- The `actionSentences` of the action branch: every sentence containing
an action marker, with no cap. -/
def actionSentencesOf (text : String) : List String :=
  (sentencesOf text).filter hasActionMarker

/-- `customPrompt && customPrompt.toLowerCase().includes('bullet')`. -/
def bulletDir (p : String) : Bool :=
  !(p == "") && jsIncludes (jsToLower p) "bullet"

/-- `customPrompt && customPrompt.toLowerCase().includes('action')`. -/
def actionDir (p : String) : Bool :=
  !(p == "") && jsIncludes (jsToLower p) "action"

/-- The `summary` local variable of `generateSimpleSummary`: the rendering
chosen by the directive, before the final fallback. -/
def renderedSummary (text customPrompt : String) : String :=
  if bulletDir customPrompt then
    jsJoin "\n" ((keySentencesOf text).map (fun s => "• " ++ jsTrim s))
  else if actionDir customPrompt then
    jsJoin "\n" ((actionSentencesOf text).map (fun s => "• " ++ jsTrim s))
  else
    jsJoin " " (keySentencesOf text)

/-- `generateSimpleSummary(text, customPrompt)`:
`return summary || 'Summary: ' + sentences.slice(0, 3).join(' ')`. -/
def generateSimpleSummary (text customPrompt : String) : String :=
  if renderedSummary text customPrompt = "" then
    "Summary: " ++ jsJoin " " ((sentencesOf text).take 3)
  else
    renderedSummary text customPrompt

/-- The outcome of the single remote call issued by
`generateSummaryWithFreeAI` (the axios POST to the Hugging Face inference
endpoint): the promise either rejects (network error, timeout, non-2xx
status), or resolves with a body whose `[0].summary_text` field is either
absent (`none`) or present with the given string. -/
inductive RemoteBehavior where
  | fail : RemoteBehavior
  | respond : Option String → RemoteBehavior
deriving DecidableEq

/-- `generateSummaryWithFreeAI(text, customPrompt)`.  `hasKey` is the
truthiness of `process.env.HUGGINGFACE_API_KEY`; when it is false the
remote call is never issued.  A rejected promise lands in the `catch`
block; a resolved response whose `summary_text` is absent or empty
(falsy) falls through.  All three paths return
`generateSimpleSummary(text, customPrompt)`. -/
def generateSummaryWithFreeAI (hasKey : Bool) (remote : RemoteBehavior)
    (text customPrompt : String) : String :=
  if hasKey then
    match remote with
    | RemoteBehavior.fail => generateSimpleSummary text customPrompt
    | RemoteBehavior.respond none => generateSimpleSummary text customPrompt
    | RemoteBehavior.respond (some s) =>
      if s = "" then generateSimpleSummary text customPrompt else s
  else generateSimpleSummary text customPrompt

/-- A document of the `Summary` Mongoose model.  `customPrompt` is kept as
a plain string (the empty string standing for an absent field, which is
how the falsy checks in the server treat it). -/
structure SummaryRecord where
  id : String
  originalText : String
  customPrompt : String
  generatedSummary : String
  editedSummary : Option String
  createdAt : Nat
deriving DecidableEq

/-- JSON response of `POST /api/summarize`: either the success body
`{id, summary, message}` or an error status with its message. -/
inductive ApiResponse where
  | ok : String → String → String → ApiResponse
  | err : Nat → String → ApiResponse
deriving DecidableEq

/-- The `POST /api/summarize` handler.  `newId` models the fresh
`uuidv4()` and `now` the `createdAt` default.  The persistence write is
modelled as the pure append of the new document to the store. -/
def handleSummarize (hasKey : Bool) (remote : RemoteBehavior) (newId : String)
    (now : Nat) (store : List SummaryRecord) (text customPrompt : String) :
    ApiResponse × List SummaryRecord :=
  if jsTrim text = "" then (ApiResponse.err 400 "Text is required", store)
  else
    (ApiResponse.ok newId (generateSummaryWithFreeAI hasKey remote text customPrompt)
      "Summary generated successfully (using free AI)",
     store ++ [⟨newId, text, customPrompt,
               generateSummaryWithFreeAI hasKey remote text customPrompt, none, now⟩])

/-- `Summary.findOneAndUpdate({id}, {editedSummary})`: set the
`editedSummary` field of the first document whose `id` matches, leaving
every other document and every other field untouched; `none` when no
document matches. -/
def updateEditedSummary (rid body : String) :
    List SummaryRecord → Option (List SummaryRecord)
  | [] => none
  | r :: rs =>
    if r.id = rid then
      some (⟨r.id, r.originalText, r.customPrompt, r.generatedSummary, some body, r.createdAt⟩ :: rs)
    else (updateEditedSummary rid body rs).map (fun l => r :: l)

/-- JSON response of `PUT /api/summaries/:id`. -/
inductive EditResponse where
  | ok : String → EditResponse
  | err : Nat → String → EditResponse
deriving DecidableEq

/-- The `PUT /api/summaries/:id` handler: 400 when `editedSummary` is
falsy, 404 when no document has the requested id, otherwise the update. -/
def handleUpdateSummary (store : List SummaryRecord) (rid body : String) :
    EditResponse × List SummaryRecord :=
  if body = "" then (EditResponse.err 400 "Edited summary is required", store)
  else
    match updateEditedSummary rid body store with
    | none => (EditResponse.err 404 "Summary not found", store)
    | some s => (EditResponse.ok "Summary updated successfully", s)

/-- Pointwise description of the edit: records whose id matches get
`editedSummary := some body`, all other records are untouched.  Under
the schema's id-uniqueness invariant this coincides with the first-match
update performed by `updateEditedSummary`. -/
def setEdited (rid body : String) (r : SummaryRecord) : SummaryRecord :=
  if r.id = rid then
    ⟨r.id, r.originalText, r.customPrompt, r.generatedSummary, some body, r.createdAt⟩
  else r

/-! ### Helper lemmas -/

theorem data_append_eq (a b : String) : (a ++ b).data = a.data ++ b.data := by
  cases a
  cases b
  rfl

theorem eq_empty_iff_data_eq_nil (s : String) : s = "" ↔ s.data = [] :=
  String.ext_iff

theorem append_ne_empty_left (a b : String) (h : a ≠ "") : a ++ b ≠ "" := by
  intro hab
  apply h
  rw [eq_empty_iff_data_eq_nil] at hab ⊢
  rw [data_append_eq] at hab
  exact (List.append_eq_nil.mp hab).1

theorem jsJoin_cons_ne_empty (sep x : String) (xs : List String) (hx : x ≠ "") :
    jsJoin sep (x :: xs) ≠ "" := by
  cases xs with
  | nil => simpa [jsJoin] using hx
  | cons y ys => exact append_ne_empty_left _ _ (append_ne_empty_left _ _ hx)

theorem bullet_item_ne_empty (r : String) : "• " ++ r ≠ "" :=
  append_ne_empty_left _ _ (by decide)

theorem generateSimpleSummary_ne_empty (text customPrompt : String) :
    generateSimpleSummary text customPrompt ≠ "" := by
  unfold generateSimpleSummary
  split
  · exact append_ne_empty_left _ _ (by decide)
  · next h => exact h

/-! ### Claims -/

/-- Claim C10: `generateSimpleSummary` returns a non-empty string for
every input whatsoever — including the empty string, whitespace-only
text, and transcripts with no sentence longer than 10 characters —
because the final fallback always emits at least the literal "Summary: "
even when the filtered sentence list is empty. -/
theorem claim_C10_always_nonempty (text customPrompt : String) :
    generateSimpleSummary text customPrompt ≠ "" :=
  generateSimpleSummary_ne_empty text customPrompt

/-- Witness for C10 at concrete inputs, including the empty transcript. -/
theorem claim_C10_witness :
    generateSimpleSummary "" "" ≠ "" ∧ generateSimpleSummary "   " "bullet" ≠ "" :=
  ⟨claim_C10_always_nonempty "" "", claim_C10_always_nonempty "   " "bullet"⟩

/-- Claim C1: for every non-empty transcript containing at least one
sentence of length ≥ 10 characters, the local pipeline
`generateSimpleSummary` returns a non-empty string, regardless of the
custom prompt. -/
theorem claim_C1_local_summary_nonempty (text customPrompt : String)
    (_hne : text ≠ "") (_hsent : ∃ s ∈ rawSentences text, 10 ≤ s.length) :
    generateSimpleSummary text customPrompt ≠ "" :=
  generateSimpleSummary_ne_empty text customPrompt

/-- Witness for C1: a transcript with one long sentence yields a
non-empty summary for an arbitrary prompt. -/
theorem claim_C1_witness :
    generateSimpleSummary "Team synced on the quarterly roadmap." "anything" ≠ "" :=
  claim_C1_local_summary_nonempty "Team synced on the quarterly roadmap." "anything"
    (by decide) (by decide)

/-- Counterexample to C7: on `"Hi. Ok. Go."` with the empty prompt the
code returns the bare literal `"Summary: "`.  The `sentences` variable
used by the final fallback is the FILTERED list (trimmed length > 10),
which is empty here, not the raw first-3 sentences the claim predicts. -/
theorem claim_C7_counterexample :
    generateSimpleSummary "Hi. Ok. Go." "" = "Summary: "
    ∧ rawSentences "Hi. Ok. Go." = ["Hi", " Ok", " Go", ""]
    ∧ sentencesOf "Hi. Ok. Go." = []
    ∧ ("Summary: " : String) ≠ "Summary: " ++ jsJoin " " ["Hi", " Ok", " Go"] := by
  refine ⟨by decide, by decide, by decide, by decide⟩

/-- Claim C7 (amended): if the rendered summary is the empty string, the
output substituted is the literal "Summary: " followed by the first 3
FILTERED sentences (trimmed length > 10) joined by a space — not the raw
sentences; on `"Hi. Ok. Go."` with an empty prompt this yields exactly
"Summary: ", and the output is always non-empty (the literal alone
guarantees it). -/
theorem claim_C7_fallback_uses_filtered_sentences (text customPrompt : String)
    (h : renderedSummary text customPrompt = "") :
    generateSimpleSummary text customPrompt =
      "Summary: " ++ jsJoin " " ((sentencesOf text).take 3) := by
  unfold generateSimpleSummary
  rw [if_pos h]

/-- Witness for C7 (amended) at the spec's own scenario input. -/
theorem claim_C7_witness :
    generateSimpleSummary "Hi. Ok. Go." "" = "Summary: " := by
  have h := claim_C7_fallback_uses_filtered_sentences "Hi. Ok. Go." "" (by decide)
  rw [h]
  decide

/-- Counterexample to C8: the first-3 fallback DOES apply when the
directive is "action": on a transcript with one long sentence and no
action marker, action mode renders the empty string and the code falls
back to "Summary: " plus the first filtered sentences. -/
theorem claim_C8_counterexample :
    actionDir "action" = true
    ∧ actionSentencesOf "Nice weather today overall." = []
    ∧ generateSimpleSummary "Nice weather today overall." "action" =
        "Summary: Nice weather today overall"
    ∧ jsIncludes (generateSimpleSummary "Nice weather today overall." "action")
        "Nice weather today overall" = true := by
  refine ⟨by decide, by decide, by decide, by decide⟩

/-- Claim C8 (amended): whenever the rendered summary is empty the code
falls back to "Summary: " plus the first 3 filtered sentences joined by
a space, in EVERY mode: in default or bullet mode when keyword selection
is empty, and likewise in action mode when no sentence carries an action
marker — the fallback is not restricted to the non-"action"/non-"bullet"
directives. -/
theorem claim_C8_first_three_fallback (text customPrompt : String) :
    ((bulletDir customPrompt = true ∨ actionDir customPrompt = false) →
      keySentencesOf text = [] →
      generateSimpleSummary text customPrompt =
        "Summary: " ++ jsJoin " " ((sentencesOf text).take 3))
    ∧ (bulletDir customPrompt = false → actionDir customPrompt = true →
      actionSentencesOf text = [] →
      generateSimpleSummary text customPrompt =
        "Summary: " ++ jsJoin " " ((sentencesOf text).take 3)) := by
  constructor
  · intro hdir hkey
    have hr : renderedSummary text customPrompt = "" := by
      rcases hdir with h | h
      · simp [renderedSummary, h, hkey, jsJoin]
      · cases hb : bulletDir customPrompt
        · simp [renderedSummary, hb, h, hkey, jsJoin]
        · simp [renderedSummary, hb, hkey, jsJoin]
    unfold generateSimpleSummary
    rw [if_pos hr]
  · intro hb ha hact
    have hr : renderedSummary text customPrompt = "" := by
      simp [renderedSummary, hb, ha, hact, jsJoin]
    unfold generateSimpleSummary
    rw [if_pos hr]

/-- Witness for C8 (amended): default mode with empty keyword selection
falls back to the first filtered sentences. -/
theorem claim_C8_witness :
    generateSimpleSummary "aa bb cc dd ee ff." "" = "Summary: aa bb cc dd ee ff" := by
  have h := (claim_C8_first_three_fallback "aa bb cc dd ee ff." "").1
    (Or.inr (by decide)) (by decide)
  rw [h]
  decide

/-- Counterexample to C5: with a "bullet" prompt but empty keyword
selection (no word longer than 3 characters, hence no keywords), the
output is the "Summary: " fallback, whose single line does not begin
with the bullet marker. -/
theorem claim_C5_counterexample :
    generateSimpleSummary "aa bb cc dd ee ff." "bullet" = "Summary: aa bb cc dd ee ff"
    ∧ ("Summary: aa bb cc dd ee ff").data.take 2 ≠ "• ".data := by
  refine ⟨by decide, by decide⟩

/-- Claim C5 (amended): if the prompt contains "bullet" (which takes
priority over "action") AND the keyword selection is non-empty, the
output is the keyword-selected sentences each rendered as "• " plus the
trimmed sentence, joined by newlines, and every rendered item begins
with "• "; when the selection is empty the "Summary: " fallback is
returned instead (see the counterexample). -/
theorem claim_C5_bullet_rendering (text customPrompt : String)
    (hb : bulletDir customPrompt = true) (hne : keySentencesOf text ≠ []) :
    generateSimpleSummary text customPrompt =
      jsJoin "\n" ((keySentencesOf text).map (fun s => "• " ++ jsTrim s))
    ∧ ∀ item ∈ (keySentencesOf text).map (fun s => "• " ++ jsTrim s),
        ∃ r, item = "• " ++ r := by
  have hr : renderedSummary text customPrompt =
      jsJoin "\n" ((keySentencesOf text).map (fun s => "• " ++ jsTrim s)) := by
    simp [renderedSummary, hb]
  have hjne : jsJoin "\n" ((keySentencesOf text).map (fun s => "• " ++ jsTrim s)) ≠ "" := by
    cases h : keySentencesOf text with
    | nil => exact absurd h hne
    | cons a as =>
      simp only [List.map]
      exact jsJoin_cons_ne_empty _ _ _ (bullet_item_ne_empty _)
  constructor
  · unfold generateSimpleSummary
    rw [hr, if_neg hjne]
  · intro item hitem
    obtain ⟨s, _, rfl⟩ := List.mem_map.mp hitem
    exact ⟨jsTrim s, rfl⟩

/-- Witness for C5 (amended): a two-sentence transcript with keywords
renders as two bullet lines. -/
theorem claim_C5_witness :
    generateSimpleSummary
      "The project deadline approaches quickly. The project team works very hard."
      "bullet points" =
    "• The project deadline approaches quickly\n• The project team works very hard" := by
  have h := (claim_C5_bullet_rendering
    "The project deadline approaches quickly. The project team works very hard."
    "bullet points" (by decide) (by decide)).1
  rw [h]
  decide

/-- Counterexample to C6: with an "action" prompt and no sentence
containing an action marker, the output is the "Summary: " fallback,
which contains a sentence matching no action marker — so it is not true
that the output contains only marker-matching sentences. -/
theorem claim_C6_counterexample :
    generateSimpleSummary "This is a nice test sentence." "action" =
      "Summary: This is a nice test sentence"
    ∧ actionSentencesOf "This is a nice test sentence." = []
    ∧ hasActionMarker "This is a nice test sentence" = false
    ∧ jsIncludes (generateSimpleSummary "This is a nice test sentence." "action")
        "This is a nice test sentence" = true := by
  refine ⟨by decide, by decide, by decide, by decide⟩

/-- Claim C6 (amended): if the prompt contains "action" and not
"bullet", AND at least one sentence carries an action marker, the output
is exactly the marker-matching sentences rendered as bullet lines (so it
contains only marker-matching sentences); when no sentence matches, the
"Summary: " fallback is returned instead (see the counterexample).  The
spec's concrete scenario is exercised by the witness. -/
theorem claim_C6_action_rendering (text customPrompt : String)
    (hb : bulletDir customPrompt = false) (ha : actionDir customPrompt = true)
    (hne : actionSentencesOf text ≠ []) :
    generateSimpleSummary text customPrompt =
      jsJoin "\n" ((actionSentencesOf text).map (fun s => "• " ++ jsTrim s))
    ∧ ∀ s ∈ actionSentencesOf text, hasActionMarker s = true := by
  have hr : renderedSummary text customPrompt =
      jsJoin "\n" ((actionSentencesOf text).map (fun s => "• " ++ jsTrim s)) := by
    simp [renderedSummary, hb, ha]
  have hjne : jsJoin "\n" ((actionSentencesOf text).map (fun s => "• " ++ jsTrim s)) ≠ "" := by
    cases h : actionSentencesOf text with
    | nil => exact absurd h hne
    | cons a as =>
      simp only [List.map]
      exact jsJoin_cons_ne_empty _ _ _ (bullet_item_ne_empty _)
  constructor
  · unfold generateSimpleSummary
    rw [hr, if_neg hjne]
  · intro s hs
    exact (List.mem_filter.mp hs).2

/-- Witness for C6 (amended), at the spec's scenario: prompt
"give me action items" keeps the "will" and "should" sentences as bullet
lines and drops the first sentence. -/
theorem claim_C6_witness :
    generateSimpleSummary
      "This is a test. We will finish the report. We should call the client."
      "give me action items" =
    "• We will finish the report\n• We should call the client" := by
  have h := (claim_C6_action_rendering
    "This is a test. We will finish the report. We should call the client."
    "give me action items" (by decide) (by decide) (by decide)).1
  rw [h]
  decide

/-- Counterexample to C3: tie-break by first occurrence fails when a
cleaned word is a canonical numeral.  In `"zzzz zzzz 1234 1234"` both
words occur twice and "zzzz" occurs first, but `Object.entries`
enumerates the array-index key "1234" before the string key "zzzz", so
the stable sort returns ["1234", "zzzz"], not the first-occurrence order
["zzzz", "1234"]. -/
theorem claim_C3_counterexample :
    keywordsOf "zzzz zzzz 1234 1234" = ["1234", "zzzz"]
    ∧ keywordsFirstOcc "zzzz zzzz 1234 1234" = ["zzzz", "1234"]
    ∧ keywordsOf "zzzz zzzz 1234 1234" ≠ keywordsFirstOcc "zzzz zzzz 1234 1234" := by
  refine ⟨by decide, by decide, by decide⟩

/-- Claim C3 (amended): the ranker builds the frequency table over
lowercased, `\w`-stripped words of cleaned length > 3 and returns the
top 10 by descending frequency via a stable sort; equal-frequency ties
follow `Object.entries` enumeration order, which is first-occurrence
order PROVIDED no counted word is a canonical array-index numeral
(numeral keys enumerate first, in ascending numeric order).  Under that
proviso the result coincides with the pure first-occurrence ranking
`keywordsFirstOcc`; determinism is immediate since the ranker is a pure
function of the text. -/
theorem claim_C3_keywords_first_occurrence (text : String)
    (hnum : ∀ e ∈ wordCountEntries text, isArrayIndexKey e.1 = false) :
    keywordsOf text = keywordsFirstOcc text := by
  have h1 : (wordCountEntries text).filter (fun e => isArrayIndexKey e.1) = [] :=
    List.filter_eq_nil_iff.mpr (fun e he => by simp [hnum e he])
  have h2 : (wordCountEntries text).filter (fun e => !isArrayIndexKey e.1) =
      wordCountEntries text :=
    List.filter_eq_self.mpr (fun e he => by simp [hnum e he])
  unfold keywordsOf keywordsFirstOcc jsObjectEntries
  rw [h1, h2]
  rfl

/-- Witness for C3 (amended): a transcript with alphabetic words only,
with frequencies 3, 2, 1 and a tie-free ranking. -/
theorem claim_C3_witness :
    keywordsOf "alpha beta alpha gamma beta alpha" = ["alpha", "beta", "gamma"] := by
  have h := claim_C3_keywords_first_occurrence "alpha beta alpha gamma beta alpha" (by decide)
  rw [h]
  decide

/-- Claim C4: keyword-based selection returns at most 5 sentences, in
original transcript order (a sublist of the sentence list), each of
whose lowercased text contains at least one ranked keyword as a
substring; action-mode selection keeps exactly (hence every one of) the
sentences containing one of the six markers, with no upper bound. -/
theorem claim_C4_selection_contract (text : String) :
    (keySentencesOf text).length ≤ 5
    ∧ List.Sublist (keySentencesOf text) (sentencesOf text)
    ∧ (∀ s ∈ keySentencesOf text, ∃ kw ∈ keywordsOf text,
        jsIncludes (jsToLower s) kw = true)
    ∧ actionSentencesOf text = (sentencesOf text).filter hasActionMarker
    ∧ (∀ s ∈ sentencesOf text, hasActionMarker s = true → s ∈ actionSentencesOf text) := by
  refine ⟨?_, ?_, ?_, rfl, ?_⟩
  · unfold keySentencesOf
    rw [List.length_take]
    exact min_le_left _ _
  · unfold keySentencesOf
    exact (List.take_sublist 5 _).trans (List.filter_sublist _)
  · intro s hs
    unfold keySentencesOf at hs
    have hs' := (List.take_sublist 5 _).subset hs
    obtain ⟨x, hx, hinc⟩ := List.any_eq_true.mp (List.mem_filter.mp hs').2
    exact ⟨x, hx, hinc⟩
  · intro s hs h
    exact List.mem_filter.mpr ⟨hs, h⟩

/-- Witness for C4: a selected sentence contains a keyword, and a
marker-bearing sentence is kept by action-mode selection. -/
theorem claim_C4_witness :
    (∃ kw ∈ keywordsOf
        "The project deadline approaches quickly. The project team works very hard.",
      jsIncludes (jsToLower "The project deadline approaches quickly") kw = true)
    ∧ " We will finish the report" ∈ actionSentencesOf
        "This is a test. We will finish the report. We should call the client." :=
  ⟨(claim_C4_selection_contract
      "The project deadline approaches quickly. The project team works very hard.").2.2.1
      "The project deadline approaches quickly" (by decide),
   (claim_C4_selection_contract
      "This is a test. We will finish the report. We should call the client.").2.2.2.2
      " We will finish the report" (by decide) (by decide)⟩

/-- Claim C2: whenever the remote tier is unavailable — the credential is
absent, the call rejects, or the response lacks a usable summary field —
the orchestrator returns exactly the local pipeline's result and the
summarize endpoint answers with a success body carrying that local
summary (no remote error is surfaced); the new record is persisted with
the local summary. -/
theorem claim_C2_remote_failure_absorbed
    (hasKey : Bool) (remote : RemoteBehavior) (newId : String) (now : Nat)
    (store : List SummaryRecord) (text customPrompt : String)
    (hfail : hasKey = false ∨ remote = RemoteBehavior.fail ∨
      remote = RemoteBehavior.respond none ∨ remote = RemoteBehavior.respond (some "")) :
    generateSummaryWithFreeAI hasKey remote text customPrompt =
      generateSimpleSummary text customPrompt
    ∧ (jsTrim text ≠ "" →
        handleSummarize hasKey remote newId now store text customPrompt =
          (ApiResponse.ok newId (generateSimpleSummary text customPrompt)
            "Summary generated successfully (using free AI)",
           store ++ [⟨newId, text, customPrompt,
                     generateSimpleSummary text customPrompt, none, now⟩])) := by
  have h1 : generateSummaryWithFreeAI hasKey remote text customPrompt =
      generateSimpleSummary text customPrompt := by
    rcases hfail with h | h | h | h
    · simp [generateSummaryWithFreeAI, h]
    · subst h
      cases hasKey <;> simp [generateSummaryWithFreeAI]
    · subst h
      cases hasKey <;> simp [generateSummaryWithFreeAI]
    · subst h
      cases hasKey <;> simp [generateSummaryWithFreeAI]
  refine ⟨h1, fun ht => ?_⟩
  simp [handleSummarize, ht, h1]

/-- Witness for C2: with a configured key and a rejecting remote call,
the endpoint succeeds with the locally generated summary. -/
theorem claim_C2_witness :
    handleSummarize true RemoteBehavior.fail "id-1" 0 []
        "The quarterly budget was approved by the board." "" =
      (ApiResponse.ok "id-1"
        (generateSimpleSummary "The quarterly budget was approved by the board." "")
        "Summary generated successfully (using free AI)",
       [⟨"id-1", "The quarterly budget was approved by the board.", "",
         generateSimpleSummary "The quarterly budget was approved by the board." "",
         none, 0⟩]) := by
  have h := (claim_C2_remote_failure_absorbed true RemoteBehavior.fail "id-1" 0 []
    "The quarterly budget was approved by the board." "" (Or.inr (Or.inl rfl))).2
    (by decide)
  simpa using h

theorem setEdited_id (rid body : String) (q : SummaryRecord) :
    (setEdited rid body q).id = q.id := by
  by_cases h : q.id = rid <;> simp [setEdited, h]

theorem setEdited_comp (rid body body2 : String) (q : SummaryRecord) :
    setEdited rid body2 (setEdited rid body q) = setEdited rid body2 q := by
  by_cases h : q.id = rid <;> simp [setEdited, h]

theorem updateEditedSummary_eq_none (rid body : String) (store : List SummaryRecord)
    (h : ∀ r ∈ store, r.id ≠ rid) : updateEditedSummary rid body store = none := by
  induction store with
  | nil => rfl
  | cons r rs ih =>
    unfold updateEditedSummary
    rw [if_neg (h r (List.mem_cons_self r rs))]
    rw [ih (fun q hq => h q (List.mem_cons_of_mem r hq))]
    rfl

theorem map_setEdited_eq_self (rid body : String) (l : List SummaryRecord)
    (h : ∀ r ∈ l, r.id ≠ rid) : l.map (setEdited rid body) = l := by
  induction l with
  | nil => rfl
  | cons r rs ih =>
    simp only [List.map_cons]
    rw [setEdited, if_neg (h r (List.mem_cons_self r rs))]
    rw [ih (fun q hq => h q (List.mem_cons_of_mem r hq))]

theorem updateEditedSummary_eq_map (rid body : String) (store : List SummaryRecord)
    (hnd : (store.map SummaryRecord.id).Nodup) (r : SummaryRecord) (hr : r ∈ store)
    (hid : r.id = rid) :
    updateEditedSummary rid body store = some (store.map (setEdited rid body)) := by
  induction store with
  | nil => cases hr
  | cons q qs ih =>
    by_cases hq : q.id = rid
    · have hqs : ∀ p ∈ qs, p.id ≠ rid := by
        intro p hp hpid
        have h1 : q.id ∉ qs.map SummaryRecord.id := by
          simp only [List.map_cons, List.nodup_cons] at hnd
          exact hnd.1
        apply h1
        rw [hq, ← hpid]
        exact List.mem_map_of_mem _ hp
      unfold updateEditedSummary
      rw [if_pos hq]
      simp only [List.map_cons]
      rw [setEdited, if_pos hq, map_setEdited_eq_self rid body qs hqs]
    · have hrqs : r ∈ qs := by
        cases hr with
        | head => exact absurd hid hq
        | tail _ h => exact h
      have hnd2 : (qs.map SummaryRecord.id).Nodup := by
        simp only [List.map_cons, List.nodup_cons] at hnd
        exact hnd.2
      unfold updateEditedSummary
      rw [if_neg hq, ih hnd2 hrqs]
      simp only [Option.map_some', List.map_cons]
      rw [setEdited, if_neg hq]

/-- Claim C9: an edit with an unknown id fails with 404 and leaves the
store unchanged; an empty `editedSummary` fails with 400; otherwise
(under the schema's id-uniqueness invariant) the edit succeeds and the
new store is the old store with only the matched record's
`editedSummary` replaced — id, originalText, customPrompt,
generatedSummary and createdAt of every record are bit-identical — and a
repeated edit replaces the prior `editedSummary` value again. -/
theorem claim_C9_edit_frame (store : List SummaryRecord) (rid body : String) :
    (body = "" →
      handleUpdateSummary store rid body =
        (EditResponse.err 400 "Edited summary is required", store))
    ∧ (body ≠ "" → (∀ r ∈ store, r.id ≠ rid) →
      handleUpdateSummary store rid body =
        (EditResponse.err 404 "Summary not found", store))
    ∧ (body ≠ "" → (store.map SummaryRecord.id).Nodup →
       ∀ r ∈ store, r.id = rid →
      handleUpdateSummary store rid body =
        (EditResponse.ok "Summary updated successfully", store.map (setEdited rid body))
      ∧ (∀ q ∈ store, (setEdited rid body q).id = q.id
          ∧ (setEdited rid body q).originalText = q.originalText
          ∧ (setEdited rid body q).customPrompt = q.customPrompt
          ∧ (setEdited rid body q).generatedSummary = q.generatedSummary
          ∧ (setEdited rid body q).createdAt = q.createdAt)
      ∧ setEdited rid body r =
          ⟨r.id, r.originalText, r.customPrompt, r.generatedSummary, some body, r.createdAt⟩
      ∧ (∀ q ∈ store, q.id ≠ rid → setEdited rid body q = q)
      ∧ (∀ body2, body2 ≠ "" →
          handleUpdateSummary (store.map (setEdited rid body)) rid body2 =
            (EditResponse.ok "Summary updated successfully",
             store.map (setEdited rid body2)))) := by
  refine ⟨?_, ?_, ?_⟩
  · intro h
    simp [handleUpdateSummary, h]
  · intro hb hnone
    simp [handleUpdateSummary, hb, updateEditedSummary_eq_none rid body store hnone]
  · intro hb hnd r hr hid
    have hupd := updateEditedSummary_eq_map rid body store hnd r hr hid
    refine ⟨?_, ?_, ?_, ?_, ?_⟩
    · simp [handleUpdateSummary, hb, hupd]
    · intro q _
      by_cases h : q.id = rid <;> simp [setEdited, h]
    · simp [setEdited, hid]
    · intro q _ hqid
      simp [setEdited, hqid]
    · intro body2 hb2
      have hnd2 : ((store.map (setEdited rid body)).map SummaryRecord.id).Nodup := by
        rw [List.map_map]
        have hfe : (SummaryRecord.id ∘ setEdited rid body) = SummaryRecord.id := by
          funext q
          exact setEdited_id rid body q
        rw [hfe]
        exact hnd
      have hr2 : setEdited rid body r ∈ store.map (setEdited rid body) :=
        List.mem_map_of_mem _ hr
      have hid2 : (setEdited rid body r).id = rid := by
        rw [setEdited_id]
        exact hid
      have hupd2 := updateEditedSummary_eq_map rid body2 _ hnd2 _ hr2 hid2
      have hcomp : (store.map (setEdited rid body)).map (setEdited rid body2) =
          store.map (setEdited rid body2) := by
        rw [List.map_map]
        congr 1
        funext q
        exact setEdited_comp rid body body2 q
      rw [hcomp] at hupd2
      simp [handleUpdateSummary, hb2, hupd2]

/-- Witness for C9: a one-record store edited twice; each edit changes
only `editedSummary` and the second replaces the first. -/
theorem claim_C9_witness :
    handleUpdateSummary [⟨"r1", "orig", "", "gen", none, 5⟩] "r1" "first edit" =
      (EditResponse.ok "Summary updated successfully",
       [⟨"r1", "orig", "", "gen", some "first edit", 5⟩])
    ∧ handleUpdateSummary [⟨"r1", "orig", "", "gen", some "first edit", 5⟩]
        "r1" "second edit" =
      (EditResponse.ok "Summary updated successfully",
       [⟨"r1", "orig", "", "gen", some "second edit", 5⟩]) := by
  have h := (claim_C9_edit_frame [⟨"r1", "orig", "", "gen", none, 5⟩] "r1" "first edit").2.2
    (by decide) (by decide) ⟨"r1", "orig", "", "gen", none, 5⟩ (by decide) (by decide)
  have h2 := h.2.2.2.2 "second edit" (by decide)
  have e1 : ([⟨"r1", "orig", "", "gen", none, 5⟩] : List SummaryRecord).map
      (setEdited "r1" "first edit") = [⟨"r1", "orig", "", "gen", some "first edit", 5⟩] := by
    decide
  have e2 : ([⟨"r1", "orig", "", "gen", none, 5⟩] : List SummaryRecord).map
      (setEdited "r1" "second edit") = [⟨"r1", "orig", "", "gen", some "second edit", 5⟩] := by
    decide
  rw [e1, e2] at h2
  rw [e1] at h
  exact ⟨h.1, h2⟩
